import Mathlib

/-!
Shallow embedding of the reference-resolution and schema-reconciliation
engine of `databuildcheck`: the dbt-manifest lookup (`manifest.py`), the
SQL column checker (`checks/sql_column_check.py`) and the SQL table
checker (`checks/sql_table_check.py`).  External collaborators (the file
system, the `sqlglot` grammar) are passed in as explicit oracles; Python
exceptions are modelled with `Except`, Python `None` with `Option`, and
Python sets with `Finset String`.
-/

/-- Python `s.lower()`: lower-case every character. -/
def pyLower (s : String) : String := String.mk (s.data.map Char.toLower)

/-- Python `prefix in s`-style startswith on a single prefix string. -/
def pyStartsWith (s p : String) : Bool := p.data.isPrefixOf s.data

/-- Python `s.endswith(p)`. -/
def pyEndsWith (s p : String) : Bool := p.data.isSuffixOf s.data

/-- Split a character list at every `'.'` (Python `s.split(".")` on the
character level). -/
def splitDots : List Char → List (List Char)
  | [] => [[]]
  | c :: rest =>
    let r := splitDots rest
    if c = '.' then [] :: r
    else
      match r with
      | [] => [[c]]
      | h :: t => (c :: h) :: t

/-- Python `ref.split(".")`. -/
def pySplitDot (s : String) : List String := (splitDots s.data).map String.mk

/-- Python `subs.get(k, k)` over a substitution map modelled as an
association list. -/
def subGet (m : List (String × String)) (k : String) : String :=
  match m.find? (fun p => decide (p.1 = k)) with
  | some p => p.2
  | none => k

/-- Python dict assignment `d[k] = v`: overwrite the binding if the key is
present (keeping its position), otherwise append the new binding. -/
def dictInsert {α : Type} : List (String × α) → String → α → List (String × α)
  | [], k, v => [(k, v)]
  | p :: rest, k, v => if p.1 = k then (k, v) :: rest else p :: dictInsert rest k v

/-- Python dict read `d.get(k)`. -/
def dictFind? {α : Type} (m : List (String × α)) (k : String) : Option α :=
  (m.find? (fun p => decide (p.1 = k))).map (·.2)

/-- Python `k in d` (key membership). -/
def dictMem {α : Type} (m : List (String × α)) (k : String) : Bool :=
  (dictFind? m k).isSome

theorem dictFind?_insert_self {α : Type} (m : List (String × α)) (k : String) (v : α) :
    dictFind? (dictInsert m k v) k = some v := by
  induction m with
  | nil => simp [dictInsert, dictFind?]
  | cons p rest ih =>
    by_cases h : p.1 = k
    · simp [dictInsert, dictFind?, h]
    · simp only [dictInsert, if_neg h]
      simpa [dictFind?, List.find?, h] using ih

theorem dictFind?_insert_ne {α : Type} (m : List (String × α)) (k k' : String) (v : α)
    (hne : k' ≠ k) : dictFind? (dictInsert m k v) k' = dictFind? m k' := by
  induction m with
  | nil => simp [dictInsert, dictFind?, List.find?, Ne.symm hne]
  | cons p rest ih =>
    by_cases h : p.1 = k
    · by_cases h' : p.1 = k'
      · exact absurd (h'.symm.trans h) hne
      · simp [dictInsert, dictFind?, List.find?, h, h', Ne.symm hne]
    · simp only [dictInsert, if_neg h]
      by_cases h' : p.1 = k'
      · simp [dictFind?, List.find?, h']
      · simpa [dictFind?, List.find?, h'] using ih

/-! ## Manifest (`manifest.py`) -/

/-- One manifest node or source entry; fields used by the checks, each read
with `node_data.get(key, default)` semantics. -/
structure NodeData where
  name : String := ""
  database : String := ""
  schema : String := ""
  original_file_path : Option String := none
  columns : List String := []
deriving DecidableEq

/-- The loaded `manifest.json`: a `nodes` mapping and a `sources` mapping,
in insertion order. -/
structure Manifest where
  nodes : List (String × NodeData) := []
  sources : List (String × NodeData) := []
deriving DecidableEq

/-- `DbtManifest.get_model_nodes`: nodes whose id starts with `"model."`. -/
def get_model_nodes (m : Manifest) : List (String × NodeData) :=
  m.nodes.filter (fun p => pyStartsWith p.1 "model.")

/-- `DbtManifest.get_source_nodes`: sources whose id starts with `"source."`. -/
def get_source_nodes (m : Manifest) : List (String × NodeData) :=
  m.sources.filter (fun p => pyStartsWith p.1 "source.")

/-- `DbtManifest.get_model_columns`: the columns of a node, `{}` if the node
is missing. -/
def get_model_columns (m : Manifest) (node_id : String) : List String :=
  match m.nodes.find? (fun p => decide (p.1 = node_id)) with
  | some p => p.2.columns
  | none => []

/-- `DbtManifest.get_model_original_file_path`. -/
def get_model_original_file_path (m : Manifest) (node_id : String) : Option String :=
  match m.nodes.find? (fun p => decide (p.1 = node_id)) with
  | some p => p.2.original_file_path
  | none => none

/-- The metadata value stored in the referenceable-tables dict. -/
structure TableMeta where
  type : String
  unique_id : String
  name : String
  database : String
  schema : String
deriving DecidableEq

/-- `DbtManifest._generate_table_references`: the 1-, 2- and 3-segment
lower-cased reference strings for one table. -/
def generate_table_references (name schema database : String) : List String :=
  (if name ≠ "" then [pyLower name] else []) ++
  (if schema ≠ "" ∧ name ≠ "" then [pyLower schema ++ "." ++ pyLower name] else []) ++
  (if database ≠ "" ∧ schema ≠ "" ∧ name ≠ "" then
    [pyLower database ++ "." ++ pyLower schema ++ "." ++ pyLower name] else [])

/-- The reference strings generated for one manifest node. -/
def node_table_refs (p : String × NodeData) : List String :=
  generate_table_references p.2.name p.2.schema p.2.database

/-- The dict value built for one manifest node. -/
def node_entry (ty : String) (p : String × NodeData) : TableMeta :=
  { type := ty, unique_id := p.1, name := p.2.name,
    database := p.2.database, schema := p.2.schema }

/-- Insert all reference strings of one node into the dict
(`referenceable_tables[ref] = {...}` for each generated `ref`). -/
def insert_node (ty : String) (acc : List (String × TableMeta))
    (p : String × NodeData) : List (String × TableMeta) :=
  (node_table_refs p).foldl (fun a r => dictInsert a r (node_entry ty p)) acc

/-- `DbtManifest.get_all_referenceable_tables`: models first, then sources,
later insertions overwriting earlier ones. -/
def get_all_referenceable_tables (man : Manifest) : List (String × TableMeta) :=
  (get_source_nodes man).foldl (insert_node "source")
    ((get_model_nodes man).foldl (insert_node "model") [])

theorem dictFind?_insertList {α : Type} (refs : List String) (e : α)
    (m : List (String × α)) (k : String) :
    dictFind? (refs.foldl (fun a r => dictInsert a r e) m) k =
      if k ∈ refs then some e else dictFind? m k := by
  induction refs generalizing m with
  | nil => simp
  | cons r rest ih =>
    simp only [List.foldl_cons, ih, List.mem_cons]
    by_cases hk : k ∈ rest
    · simp [hk]
    · by_cases hr : k = r
      · simp [hr, hk, dictFind?_insert_self]
      · simp [hr, hk, dictFind?_insert_ne _ _ _ _ hr]

theorem dictFind?_foldl_nodes (ty : String) (ds : List (String × NodeData))
    (m : List (String × TableMeta)) (k : String) :
    dictFind? (ds.foldl (insert_node ty) m) k =
      match ds.reverse.find? (fun p => decide (k ∈ node_table_refs p)) with
      | some p => some (node_entry ty p)
      | none => dictFind? m k := by
  induction ds generalizing m with
  | nil => simp
  | cons d rest ih =>
    simp only [List.foldl_cons, ih, List.reverse_cons, List.find?_append]
    cases hfind : rest.reverse.find? (fun p => decide (k ∈ node_table_refs p)) with
    | some p => simp [Option.or]
    | none =>
      simp only [Option.or, insert_node, dictFind?_insertList, List.find?_singleton]
      by_cases hk : k ∈ node_table_refs d
      · simp [hk]
      · simp [hk]

/-- Full characterisation of a lookup in the referenceable-tables dict:
the last source generating the key wins, else the last model, else absent. -/
theorem get_all_referenceable_tables_find? (man : Manifest) (k : String) :
    dictFind? (get_all_referenceable_tables man) k =
      match (get_source_nodes man).reverse.find?
          (fun p => decide (k ∈ node_table_refs p)) with
      | some p => some (node_entry "source" p)
      | none =>
        match (get_model_nodes man).reverse.find?
            (fun p => decide (k ∈ node_table_refs p)) with
        | some p => some (node_entry "model" p)
        | none => none := by
  simp only [get_all_referenceable_tables, dictFind?_foldl_nodes]
  cases (get_source_nodes man).reverse.find? (fun p => decide (k ∈ node_table_refs p)) with
  | some p => rfl
  | none =>
    cases (get_model_nodes man).reverse.find? (fun p => decide (k ∈ node_table_refs p)) with
    | some p => rfl
    | none => simp [dictFind?]

/-! ## SQL table checker (`checks/sql_table_check.py`) -/

/-- One `sqlglot` `exp.Table` node as consumed by the checker: the
`catalog`, `db` and `schema` string attributes, empty when absent. -/
structure SqlTable where
  catalog : String := ""
  db : String := ""
  name : String := ""
deriving DecidableEq

/-- One `sqlglot` `exp.CTE` node as consumed by the table checker: its
alias string, empty when absent. -/
structure SqlCte where
  «alias» : String := ""
deriving DecidableEq

/-- The parse tree as consumed by the table checker: the results of
`find_all(exp.CTE)` and `find_all(exp.Table)` over the whole tree. -/
structure TParsed where
  ctes : List SqlCte := []
  tables : List SqlTable := []
deriving DecidableEq

/-- The `parts` list built by `_normalize_table_reference`: catalog, db and
name, keeping only the truthy (non-empty) attributes. -/
def tableParts (tb : SqlTable) : List String :=
  (if tb.catalog ≠ "" then [tb.catalog] else []) ++
  (if tb.db ≠ "" then [tb.db] else []) ++
  (if tb.name ≠ "" then [tb.name] else [])

/-- `SqlTableChecker._normalize_table_reference`: join the present parts
with dots, substituting the database and schema segments (before
lower-casing each segment). -/
def normalize_table_reference (dbS schS : List (String × String))
    (tb : SqlTable) : Option String :=
  match tableParts tb with
  | [] => none
  | [t] => some (pyLower t)
  | [s, t] => some (pyLower (subGet schS s) ++ "." ++ pyLower t)
  | c :: s :: t :: _ =>
    some (pyLower (subGet dbS c) ++ "." ++ pyLower (subGet schS s) ++ "." ++ pyLower t)

/-- The CTE-alias exclusion set collected by `_extract_table_references`:
lower-cased aliases of the CTEs with a truthy alias. -/
def cte_names (t : TParsed) : List String :=
  t.ctes.filterMap (fun c => if c.alias = "" then none else some (pyLower c.alias))

/-- `SqlTableChecker._extract_table_references`: normalize every table
node, drop falsy results, drop bare names matching a CTE alias, dedupe. -/
def extract_table_references (dbS schS : List (String × String))
    (t : TParsed) : Finset String :=
  (t.tables.filterMap (fun tb =>
    match normalize_table_reference dbS schS tb with
    | none => none
    | some n =>
      if n = "" then none
      else if '.' ∉ n.data ∧ pyLower n ∈ cte_names t then none
      else some n)).toFinset

/-- `SqlTableChecker._apply_substitutions_to_reference`: split at dots and
substitute the database and schema segments of 3- and 2-segment references. -/
def apply_substitutions_to_reference (dbS schS : List (String × String))
    (ref : String) : String :=
  match pySplitDot ref with
  | [d, s, t] => subGet dbS d ++ "." ++ subGet schS s ++ "." ++ t
  | [s, t] => subGet schS s ++ "." ++ t
  | _ => ref

/-- `SqlTableChecker._apply_table_reference_substitutions`. -/
def apply_table_reference_substitutions (dbS schS : List (String × String))
    (refs : Finset String) : Finset String :=
  refs.image (apply_substitutions_to_reference dbS schS)

/-- `SqlTableChecker._get_sql_file_path` /
`SqlColumnChecker._get_sql_file_path`: strip a trailing `.sql` and append
it back under the compiled-SQL root. -/
def get_sql_file_path (root orig : String) : String :=
  let base := if pyEndsWith orig ".sql"
    then String.mk (orig.data.take (orig.data.length - 4)) else orig
  root ++ "/" ++ base ++ ".sql"

/-- The per-model result dict of `check_model_table_references`. -/
structure TableResult where
  node_id : String
  original_file_path : Option String
  sql_file_exists : Bool
  sql_parsed : Bool
  table_references : Finset String
  valid_references : Finset String
  invalid_references : Finset String
  references_valid : Bool
  sql_file_path : Option String
  errors : List String
deriving DecidableEq

/-- `SqlTableChecker.check_model_table_references`.  The file system and
the `sqlglot` grammar are oracles: `fe` is `Path.exists`, `rf` is reading
a file (`Except.error` for an `OSError`/decode exception), `po` is
`sqlglot.parse_one` (`Except.error` for a raised parse exception, `ok
none` for a `None` result). -/
def check_model_table_references (man : Manifest) (root : String)
    (dbS schS : List (String × String)) (fe : String → Bool)
    (rf : String → Except String String)
    (po : String → Except String (Option TParsed)) (node_id : String) : TableResult :=
  let orig := get_model_original_file_path man node_id
  let base : TableResult :=
    { node_id := node_id, original_file_path := orig, sql_file_exists := false,
      sql_parsed := false, table_references := ∅, valid_references := ∅,
      invalid_references := ∅, references_valid := false,
      sql_file_path := none, errors := [] }
  match orig with
  | none => { base with errors := ["No original_file_path found in manifest"] }
  | some op =>
    let path := get_sql_file_path root op
    if fe path then
      match rf path with
      | Except.error e =>
        { base with
          sql_file_path := some path
          sql_file_exists := true
          errors := ["Error processing SQL file: " ++ e] }
      | Except.ok content =>
        match po content with
        | Except.error e =>
          { base with
            sql_file_path := some path
            sql_file_exists := true
            errors := ["Error processing SQL file: " ++ e] }
        | Except.ok none =>
          { base with
            sql_file_path := some path
            sql_file_exists := true
            errors := ["Failed to parse SQL file: " ++ path] }
        | Except.ok (some tree) =>
          let table_references := apply_table_reference_substitutions dbS schS
            (extract_table_references dbS schS tree)
          let lookup := get_all_referenceable_tables man
          let valid := table_references.filter (fun r => dictMem lookup r = true)
          let invalid := table_references.filter (fun r => ¬ dictMem lookup r = true)
          { base with
            sql_file_path := some path
            sql_file_exists := true
            sql_parsed := true
            table_references := table_references
            valid_references := valid
            invalid_references := invalid
            references_valid := (invalid.card == 0) }
    else
      { base with
        sql_file_path := some path
        errors := ["SQL file not found: " ++ path] }

/-! ## SQL column checker (`checks/sql_column_check.py`) -/

/-- One projected expression of a SELECT list, as dispatched on by
`_extract_columns_from_sql`: an `exp.Alias` (with its inner expression and
alias string), an `exp.Column` (with its `name`), the wildcard `exp.Star`,
or any other expression exposing a `name` attribute (empty when the
expression has no structural name). -/
inductive ProjExpr where
  | aliasE (inner : ProjExpr) (aliasName : String)
  | column (name : String)
  | star
  | other (name : String)
deriving DecidableEq

/-- The `name` attribute every `sqlglot` expression exposes; `exp.Star`
has no `this` argument, so its `name` is the empty string. -/
def ProjExpr.nameAttr : ProjExpr → String
  | .aliasE _ a => a
  | .column n => n
  | .star => ""
  | .other n => n

/-- One loop step of `_extract_columns_from_sql`: `isinstance(e, Alias)`
adds the alias, `isinstance(e, Column)` adds the column name, otherwise a
truthy `name` attribute is added and a falsy one is skipped. -/
def projInsert (cols : Finset String) (e : ProjExpr) : Finset String :=
  match e with
  | .aliasE _ a => insert a cols
  | .column n => insert n cols
  | e => if e.nameAttr ≠ "" then insert e.nameAttr cols else cols

/-- The name one projected expression contributes, if any (used to state
the extraction theorems; follows the same dispatch as `projInsert`). -/
def projContribution : ProjExpr → Option String
  | .aliasE _ a => some a
  | .column n => some n
  | e => if e.nameAttr ≠ "" then some e.nameAttr else none

/-- One CTE definition as seen by the column checker: its alias and its
internal projection list. -/
structure CteDef where
  «alias» : String := ""
  projections : List ProjExpr := []
deriving DecidableEq

/-- The parse tree as consumed by the column checker.  A `WITH ...
SELECT` text parses to an `exp.Select` whose CTEs sit in its `with`
argument, not in its projection list (`select`); any non-`Select` tree is
consumed only through `find(exp.Select)`, whose result is the `nonSelect`
payload. -/
inductive CParsed where
  | select (ctes : List CteDef) (projections : List ProjExpr)
  | nonSelect (found : Option (List ProjExpr))
deriving DecidableEq

/-- `SqlColumnChecker._extract_columns_from_sql`: fold the final SELECT's
projection list, contributing alias / column name / truthy `name`. -/
def extract_columns_from_sql : CParsed → Finset String
  | .select _ ps => ps.foldl projInsert ∅
  | .nonSelect (some ps) => ps.foldl projInsert ∅
  | .nonSelect none => ∅

/-- `_parse_sql_file` (both checkers): missing file, read/decode error and
raised parse exception all become `none`; a `None` result of
`sqlglot.parse_one` is returned as-is. -/
def parse_sql_file {α : Type} (ex : Bool) (rf : Except String String)
    (po : String → Except String (Option α)) : Option α :=
  if ex then
    match rf with
    | Except.error _ => none
    | Except.ok content =>
      match po content with
      | Except.error _ => none
      | Except.ok o => o
  else none

/-- The per-model result dict of `check_model_columns`. -/
structure ColumnResult where
  node_id : String
  original_file_path : Option String
  sql_file_exists : Bool
  sql_parsed : Bool
  manifest_columns : Finset String
  sql_columns : Finset String
  columns_match : Bool
  missing_in_sql : Finset String
  extra_in_sql : Finset String
  sql_file_path : Option String
  errors : List String
deriving DecidableEq

/-- `SqlColumnChecker.check_model_columns`, with the same file-system and
grammar oracles as the table checker. -/
def check_model_columns (man : Manifest) (root : String) (fe : String → Bool)
    (rf : String → Except String String)
    (po : String → Except String (Option CParsed)) (node_id : String) : ColumnResult :=
  let orig := get_model_original_file_path man node_id
  let mcols := (get_model_columns man node_id).toFinset
  let base : ColumnResult :=
    { node_id := node_id, original_file_path := orig, sql_file_exists := false,
      sql_parsed := false, manifest_columns := mcols, sql_columns := ∅,
      columns_match := false, missing_in_sql := ∅, extra_in_sql := ∅,
      sql_file_path := none, errors := [] }
  match orig with
  | none => { base with errors := ["No original_file_path found in manifest"] }
  | some op =>
    let path := get_sql_file_path root op
    if fe path then
      match parse_sql_file (fe path) (rf path) po with
      | none =>
        { base with
          sql_file_path := some path
          sql_file_exists := true
          errors := ["Failed to parse SQL file: " ++ path] }
      | some tree =>
        let scols := extract_columns_from_sql tree
        let missing := mcols \ scols
        let extra := scols \ mcols
        { base with
          sql_file_path := some path
          sql_file_exists := true
          sql_parsed := true
          sql_columns := scols
          missing_in_sql := missing
          extra_in_sql := extra
          columns_match := (missing.card == 0 && extra.card == 0) }
    else
      { base with
        sql_file_path := some path
        errors := ["SQL file not found: " ++ path] }

/-- `SqlColumnChecker.check_all_models`: one result per model node, in
manifest iteration order. -/
def check_all_models (man : Manifest) (root : String) (fe : String → Bool)
    (rf : String → Except String String)
    (po : String → Except String (Option CParsed)) : List ColumnResult :=
  (get_model_nodes man).map (fun p => check_model_columns man root fe rf po p.1)

/-! ## Characterisations of the per-model check results -/

/-- A table-reference check that reached the matching step: the file was
found, read and parsed, and the result is the fully-populated record. -/
theorem check_model_table_references_parsed_eq (man : Manifest) (root : String)
    (dbS schS : List (String × String)) (fe : String → Bool)
    (rf : String → Except String String)
    (po : String → Except String (Option TParsed)) (id : String)
    (h : (check_model_table_references man root dbS schS fe rf po id).sql_parsed = true) :
    ∃ op content tree,
      get_model_original_file_path man id = some op ∧
      fe (get_sql_file_path root op) = true ∧
      rf (get_sql_file_path root op) = Except.ok content ∧
      po content = Except.ok (some tree) ∧
      check_model_table_references man root dbS schS fe rf po id =
        { node_id := id
          original_file_path := some op
          sql_file_exists := true
          sql_parsed := true
          table_references := apply_table_reference_substitutions dbS schS
            (extract_table_references dbS schS tree)
          valid_references := (apply_table_reference_substitutions dbS schS
            (extract_table_references dbS schS tree)).filter
              (fun r => dictMem (get_all_referenceable_tables man) r = true)
          invalid_references := (apply_table_reference_substitutions dbS schS
            (extract_table_references dbS schS tree)).filter
              (fun r => ¬ dictMem (get_all_referenceable_tables man) r = true)
          references_valid :=
            (((apply_table_reference_substitutions dbS schS
              (extract_table_references dbS schS tree)).filter
                (fun r => ¬ dictMem (get_all_referenceable_tables man) r = true)).card == 0)
          sql_file_path := some (get_sql_file_path root op)
          errors := [] } := by
  rcases ho : get_model_original_file_path man id with _ | op
  · exact absurd h (by simp [check_model_table_references, ho])
  by_cases hfe : fe (get_sql_file_path root op) = true
  · rcases hrf : rf (get_sql_file_path root op) with e | content
    · exact absurd h (by simp [check_model_table_references, ho, hfe, hrf])
    rcases hpo : po content with e | o
    · exact absurd h (by simp [check_model_table_references, ho, hfe, hrf, hpo])
    rcases o with _ | tree
    · exact absurd h (by simp [check_model_table_references, ho, hfe, hrf, hpo])
    exact ⟨op, content, tree, rfl, hfe, hrf, hpo, by
      simp [check_model_table_references, ho, hfe, hrf, hpo]⟩
  · exact absurd h (by
      simp only [Bool.not_eq_true] at hfe
      simp [check_model_table_references, ho, hfe])

/-- A table-reference check that stopped before the matching step keeps
the empty reference sets and a false validity flag. -/
theorem check_model_table_references_not_parsed (man : Manifest) (root : String)
    (dbS schS : List (String × String)) (fe : String → Bool)
    (rf : String → Except String String)
    (po : String → Except String (Option TParsed)) (id : String)
    (h : (check_model_table_references man root dbS schS fe rf po id).sql_parsed = false) :
    (check_model_table_references man root dbS schS fe rf po id).table_references = ∅ ∧
    (check_model_table_references man root dbS schS fe rf po id).valid_references = ∅ ∧
    (check_model_table_references man root dbS schS fe rf po id).invalid_references = ∅ ∧
    (check_model_table_references man root dbS schS fe rf po id).references_valid = false := by
  rcases ho : get_model_original_file_path man id with _ | op
  · simp [check_model_table_references, ho]
  by_cases hfe : fe (get_sql_file_path root op) = true
  · rcases hrf : rf (get_sql_file_path root op) with e | content
    · simp [check_model_table_references, ho, hfe, hrf]
    rcases hpo : po content with e | o
    · simp [check_model_table_references, ho, hfe, hrf, hpo]
    rcases o with _ | tree
    · simp [check_model_table_references, ho, hfe, hrf, hpo]
    · exact absurd h (by simp [check_model_table_references, ho, hfe, hrf, hpo])
  · simp only [Bool.not_eq_true] at hfe
    simp [check_model_table_references, ho, hfe]

/-- A column check that reached the comparison step: the file was found
and parsed, and the result is the fully-populated record. -/
theorem check_model_columns_parsed_eq (man : Manifest) (root : String)
    (fe : String → Bool) (rf : String → Except String String)
    (po : String → Except String (Option CParsed)) (id : String)
    (h : (check_model_columns man root fe rf po id).sql_parsed = true) :
    ∃ op tree,
      get_model_original_file_path man id = some op ∧
      fe (get_sql_file_path root op) = true ∧
      parse_sql_file (fe (get_sql_file_path root op)) (rf (get_sql_file_path root op)) po
        = some tree ∧
      check_model_columns man root fe rf po id =
        { node_id := id
          original_file_path := some op
          sql_file_exists := true
          sql_parsed := true
          manifest_columns := (get_model_columns man id).toFinset
          sql_columns := extract_columns_from_sql tree
          columns_match :=
            ((((get_model_columns man id).toFinset \ extract_columns_from_sql tree).card == 0)
              && ((extract_columns_from_sql tree \ (get_model_columns man id).toFinset).card == 0))
          missing_in_sql := (get_model_columns man id).toFinset \ extract_columns_from_sql tree
          extra_in_sql := extract_columns_from_sql tree \ (get_model_columns man id).toFinset
          sql_file_path := some (get_sql_file_path root op)
          errors := [] } := by
  rcases ho : get_model_original_file_path man id with _ | op
  · exact absurd h (by simp [check_model_columns, ho])
  by_cases hfe : fe (get_sql_file_path root op) = true
  · rcases hp : parse_sql_file (fe (get_sql_file_path root op))
        (rf (get_sql_file_path root op)) po with _ | tree
    · have hp' := hp; rw [hfe] at hp'
      exact absurd h (by simp [check_model_columns, ho, hfe, hp'])
    have hp' := hp; rw [hfe] at hp'
    exact ⟨op, tree, rfl, hfe, hp, by simp [check_model_columns, ho, hfe, hp']⟩
  · exact absurd h (by
      simp only [Bool.not_eq_true] at hfe
      simp [check_model_columns, ho, hfe])

/-! ## Claim theorems -/

theorem dot_mem_data_append (a b : String) : '.' ∈ (a ++ "." ++ b).data := by
  simp [String.data_append]

theorem ne_empty_of_dot_mem {n : String} (h : '.' ∈ n.data) : n ≠ "" := by
  intro he
  rw [he] at h
  simp [show ("" : String).data = [] from rfl] at h

/-- C2: a table-reference node normalising to a bare (dot-free) name that
case-insensitively equals a CTE alias of the same tree is excluded from
the extracted reference set, while a node with two or three present parts
always contributes its normalized string, CTE aliases notwithstanding. -/
theorem cte_exclusion_of_bare_names (dbS schS : List (String × String)) (t : TParsed) :
    (∀ s : String, '.' ∉ s.data →
      (∃ c ∈ t.ctes, c.alias ≠ "" ∧ pyLower s = pyLower c.alias) →
      s ∉ extract_table_references dbS schS t)
    ∧ (∀ tb ∈ t.tables, 2 ≤ (tableParts tb).length → ∀ n : String,
        normalize_table_reference dbS schS tb = some n →
        n ∈ extract_table_references dbS schS t) := by
  constructor
  · rintro s hdot ⟨c, hcmem, hca, hlow⟩ hmem
    rw [extract_table_references, List.mem_toFinset, List.mem_filterMap] at hmem
    obtain ⟨tb, _, hstep⟩ := hmem
    have hcn : pyLower s ∈ cte_names t := by
      rw [cte_names, List.mem_filterMap]
      exact ⟨c, hcmem, by rw [if_neg hca, hlow]⟩
    rcases hnorm : normalize_table_reference dbS schS tb with _ | n
    · simp [hnorm] at hstep
    · simp only [hnorm] at hstep
      by_cases hne : n = ""
      · simp [if_pos hne] at hstep
      · rw [if_neg hne] at hstep
        by_cases hctc : '.' ∉ n.data ∧ pyLower n ∈ cte_names t
        · simp [if_pos hctc] at hstep
        · rw [if_neg hctc] at hstep
          have hn : n = s := by simpa using hstep
          subst hn
          exact hctc ⟨hdot, hcn⟩
  · rintro tb htb hlen n hnorm
    have hform : ∃ a b : String, n = a ++ "." ++ b := by
      rcases hparts : tableParts tb with _ | ⟨x, rest1⟩
      · rw [normalize_table_reference, hparts] at hnorm
        exact absurd hnorm (by simp)
      rcases rest1 with _ | ⟨y, rest2⟩
      · rw [hparts] at hlen
        simp at hlen
      rcases rest2 with _ | ⟨z, rest3⟩
      · rw [normalize_table_reference, hparts] at hnorm
        exact ⟨pyLower (subGet schS x), pyLower y, by simpa using hnorm.symm⟩
      · rw [normalize_table_reference, hparts] at hnorm
        exact ⟨pyLower (subGet dbS x) ++ "." ++ pyLower (subGet schS y), pyLower z,
          by simpa using hnorm.symm⟩
    obtain ⟨a, b, hab⟩ := hform
    have hdot : '.' ∈ n.data := hab ▸ dot_mem_data_append a b
    rw [extract_table_references, List.mem_toFinset, List.mem_filterMap]
    refine ⟨tb, htb, ?_⟩
    simp only [hnorm]
    rw [if_neg (ne_empty_of_dot_mem hdot), if_neg (fun hc => hc.1 hdot)]

theorem foldl_projInsert (ps : List ProjExpr) (s : Finset String) :
    ps.foldl projInsert s = s ∪ (ps.filterMap projContribution).toFinset := by
  induction ps generalizing s with
  | nil => simp
  | cons e ps ih =>
    rw [List.foldl_cons, ih, List.filterMap_cons]
    ext x
    cases e with
    | aliasE inner a => simp [projInsert, projContribution]
    | column n => simp [projInsert, projContribution]
    | star => simp [projInsert, projContribution, ProjExpr.nameAttr]
    | other n =>
      by_cases hn : n = ""
      · simp [projInsert, projContribution, ProjExpr.nameAttr, hn]
      · simp [projInsert, projContribution, ProjExpr.nameAttr, hn]

/-- C9: on a SELECT tree the extracted column set is exactly the names
contributed by the final query's own projection list — independent of the
CTE definitions and their internal projections — where an aliased
expression contributes its alias, a column its name, any other expression
its non-empty structural name, and a wildcard contributes nothing. -/
theorem columns_from_final_projection (ctes ctes' : List CteDef) (ps : List ProjExpr) :
    extract_columns_from_sql (.select ctes ps) = (ps.filterMap projContribution).toFinset
    ∧ extract_columns_from_sql (.select ctes ps) = extract_columns_from_sql (.select ctes' ps)
    ∧ (∀ (inner : ProjExpr) (a : String), projContribution (.aliasE inner a) = some a)
    ∧ (∀ n : String, projContribution (.column n) = some n)
    ∧ (∀ n : String, n ≠ "" → projContribution (.other n) = some n)
    ∧ projContribution .star = none := by
  refine ⟨?_, rfl, fun _ _ => rfl, fun _ => rfl, fun n hn => ?_, rfl⟩
  · rw [extract_columns_from_sql, foldl_projInsert]
    simp
  · simp [projContribution, ProjExpr.nameAttr, hn]

/-- C4: whenever the SQL file exists and parses, `missing_in_sql` is the
declared minus the extracted column set, `extra_in_sql` is the extracted
minus the declared set, and `columns_match` holds iff both are empty. -/
theorem column_check_diff_sets (man : Manifest) (root : String) (fe : String → Bool)
    (rf : String → Except String String) (po : String → Except String (Option CParsed))
    (id : String)
    (hex : (check_model_columns man root fe rf po id).sql_file_exists = true)
    (hp : (check_model_columns man root fe rf po id).sql_parsed = true) :
    (check_model_columns man root fe rf po id).missing_in_sql =
      (check_model_columns man root fe rf po id).manifest_columns \
        (check_model_columns man root fe rf po id).sql_columns
    ∧ (check_model_columns man root fe rf po id).extra_in_sql =
      (check_model_columns man root fe rf po id).sql_columns \
        (check_model_columns man root fe rf po id).manifest_columns
    ∧ ((check_model_columns man root fe rf po id).columns_match = true ↔
        ((check_model_columns man root fe rf po id).missing_in_sql = ∅ ∧
         (check_model_columns man root fe rf po id).extra_in_sql = ∅)) := by
  obtain ⟨op, tree, _, _, _, heq⟩ := check_model_columns_parsed_eq man root fe rf po id hp
  rw [heq]
  refine ⟨rfl, rfl, ?_⟩
  simp [Bool.and_eq_true, Finset.card_eq_zero]

/-- C6: the sets computed by the column comparison partition the union of
the declared and extracted column sets. -/
theorem column_check_partition (man : Manifest) (root : String) (fe : String → Bool)
    (rf : String → Except String String) (po : String → Except String (Option CParsed))
    (id : String)
    (hp : (check_model_columns man root fe rf po id).sql_parsed = true) :
    ((check_model_columns man root fe rf po id).missing_in_sql ∪
      (check_model_columns man root fe rf po id).extra_in_sql ∪
      ((check_model_columns man root fe rf po id).manifest_columns ∩
        (check_model_columns man root fe rf po id).sql_columns) =
      (check_model_columns man root fe rf po id).manifest_columns ∪
        (check_model_columns man root fe rf po id).sql_columns)
    ∧ Disjoint (check_model_columns man root fe rf po id).missing_in_sql
        (check_model_columns man root fe rf po id).extra_in_sql
    ∧ Disjoint (check_model_columns man root fe rf po id).missing_in_sql
        ((check_model_columns man root fe rf po id).manifest_columns ∩
          (check_model_columns man root fe rf po id).sql_columns)
    ∧ Disjoint (check_model_columns man root fe rf po id).extra_in_sql
        ((check_model_columns man root fe rf po id).manifest_columns ∩
          (check_model_columns man root fe rf po id).sql_columns) := by
  obtain ⟨op, tree, _, _, _, heq⟩ := check_model_columns_parsed_eq man root fe rf po id hp
  rw [heq]
  refine ⟨?_, ?_, ?_, ?_⟩
  · ext x
    simp only [Finset.mem_union, Finset.mem_sdiff, Finset.mem_inter]
    tauto
  · rw [Finset.disjoint_left]
    intro x hx hx'
    simp only [Finset.mem_sdiff] at hx hx'
    tauto
  · rw [Finset.disjoint_left]
    intro x hx hx'
    simp only [Finset.mem_sdiff] at hx
    simp only [Finset.mem_inter] at hx'
    tauto
  · rw [Finset.disjoint_left]
    intro x hx hx'
    simp only [Finset.mem_sdiff] at hx
    simp only [Finset.mem_inter] at hx'
    tauto

/-- C7: the parser adapter is total — a missing file, a read error and a
raised grammar exception all become the absent result, and a successful
read and parse returns whatever tree the grammar produced. -/
theorem parse_adapter_total {α : Type} (ex : Bool) (rfile : Except String String)
    (po : String → Except String (Option α)) :
    (parse_sql_file ex rfile po = none ∨ ∃ t, parse_sql_file ex rfile po = some t)
    ∧ (ex = false → parse_sql_file ex rfile po = none)
    ∧ (∀ e, rfile = Except.error e → parse_sql_file ex rfile po = none)
    ∧ (∀ c e, rfile = Except.ok c → po c = Except.error e →
        parse_sql_file ex rfile po = none)
    ∧ (∀ c o, rfile = Except.ok c → po c = Except.ok o → ex = true →
        parse_sql_file ex rfile po = o) := by
  refine ⟨?_, ?_, ?_, ?_, ?_⟩
  · rcases hres : parse_sql_file ex rfile po with _ | t
    · exact Or.inl rfl
    · exact Or.inr ⟨t, rfl⟩
  · intro hex
    simp [parse_sql_file, hex]
  · rintro e rfl
    cases ex <;> simp [parse_sql_file]
  · rintro c e rfl hpo
    cases ex <;> simp [parse_sql_file, hpo]
  · rintro c o rfl hpo rfl
    simp [parse_sql_file, hpo]

/-- C8: a model whose compiled SQL file is missing yields a result with
`sql_file_exists = false`, exactly one error string, empty extraction
fields and a false match flag, and `check_all_models` still yields one
result per model node, in order. -/
theorem column_check_missing_file (man : Manifest) (root : String) (fe : String → Bool)
    (rf : String → Except String String) (po : String → Except String (Option CParsed))
    (id op : String)
    (ho : get_model_original_file_path man id = some op)
    (hfe : fe (get_sql_file_path root op) = false) :
    (check_model_columns man root fe rf po id).sql_file_exists = false
    ∧ (check_model_columns man root fe rf po id).sql_parsed = false
    ∧ (check_model_columns man root fe rf po id).errors =
        ["SQL file not found: " ++ get_sql_file_path root op]
    ∧ (check_model_columns man root fe rf po id).sql_columns = ∅
    ∧ (check_model_columns man root fe rf po id).missing_in_sql = ∅
    ∧ (check_model_columns man root fe rf po id).extra_in_sql = ∅
    ∧ (check_model_columns man root fe rf po id).columns_match = false
    ∧ (check_all_models man root fe rf po).length = (get_model_nodes man).length
    ∧ (∀ i (h1 : i < (check_all_models man root fe rf po).length)
        (h2 : i < (get_model_nodes man).length),
        (check_all_models man root fe rf po).get ⟨i, h1⟩ =
          check_model_columns man root fe rf po ((get_model_nodes man).get ⟨i, h2⟩).1) := by
  have hrec : check_model_columns man root fe rf po id =
      { node_id := id
        original_file_path := some op
        sql_file_exists := false
        sql_parsed := false
        manifest_columns := (get_model_columns man id).toFinset
        sql_columns := ∅
        columns_match := false
        missing_in_sql := ∅
        extra_in_sql := ∅
        sql_file_path := some (get_sql_file_path root op)
        errors := ["SQL file not found: " ++ get_sql_file_path root op] } := by
    simp [check_model_columns, ho, hfe]
  rw [hrec]
  refine ⟨rfl, rfl, rfl, rfl, rfl, rfl, rfl, ?_, ?_⟩
  · simp [check_all_models]
  · intro i h1 h2
    simp only [check_all_models, List.get_eq_getElem, List.getElem_map]

/-- C5 (amended): in every table-check result the valid/invalid sets
partition the reference set and `invalid = table_references -
valid_references`; the equivalence `references_valid ↔ invalid = ∅` holds
exactly in the results that reached the matching step, while an
early-exit result has empty sets and a false `references_valid` flag. -/
theorem table_check_partition (man : Manifest) (root : String)
    (dbS schS : List (String × String)) (fe : String → Bool)
    (rf : String → Except String String)
    (po : String → Except String (Option TParsed)) (id : String) :
    ((check_model_table_references man root dbS schS fe rf po id).invalid_references =
      (check_model_table_references man root dbS schS fe rf po id).table_references \
        (check_model_table_references man root dbS schS fe rf po id).valid_references)
    ∧ Disjoint (check_model_table_references man root dbS schS fe rf po id).valid_references
        (check_model_table_references man root dbS schS fe rf po id).invalid_references
    ∧ ((check_model_table_references man root dbS schS fe rf po id).valid_references ∪
        (check_model_table_references man root dbS schS fe rf po id).invalid_references =
        (check_model_table_references man root dbS schS fe rf po id).table_references)
    ∧ ((check_model_table_references man root dbS schS fe rf po id).sql_parsed = true →
        ((check_model_table_references man root dbS schS fe rf po id).references_valid = true ↔
         (check_model_table_references man root dbS schS fe rf po id).invalid_references = ∅))
    ∧ ((check_model_table_references man root dbS schS fe rf po id).sql_parsed = false →
        (check_model_table_references man root dbS schS fe rf po id).references_valid = false ∧
        (check_model_table_references man root dbS schS fe rf po id).invalid_references = ∅) := by
  by_cases hp : (check_model_table_references man root dbS schS fe rf po id).sql_parsed = true
  · obtain ⟨op, content, tree, _, _, _, _, heq⟩ :=
      check_model_table_references_parsed_eq man root dbS schS fe rf po id hp
    rw [heq]
    refine ⟨?_, ?_, ?_, fun _ => ?_, fun habs => ?_⟩
    · rw [Finset.filter_not]
    · exact Finset.disjoint_filter_filter_neg _ _ _
    · exact Finset.filter_union_filter_neg_eq _ _
    · simp [Finset.card_eq_zero]
    · rw [heq] at hp
      exact absurd hp (by simp_all)
  · have hp' : (check_model_table_references man root dbS schS fe rf po id).sql_parsed = false := by
      simpa using hp
    obtain ⟨ht, hv, hi, hrv⟩ :=
      check_model_table_references_not_parsed man root dbS schS fe rf po id hp'
    rw [ht, hv, hi, hrv]
    simp [hp']

/-- C5 (counterexample): a model whose compiled SQL file is missing has a
result with an empty `invalid_references` set and a false
`references_valid` flag, so `references_valid ↔ invalid = ∅` fails on
early-exit results. -/
theorem table_check_valid_iff_fails_on_missing_file :
    ¬ ((check_model_table_references
        { nodes := [("model.a", { name := "a", original_file_path := some "models/a.sql" })] }
        "c" [] [] (fun _ => false) (fun _ => Except.error "boom") (fun _ => Except.ok none)
        "model.a").references_valid = true ↔
      (check_model_table_references
        { nodes := [("model.a", { name := "a", original_file_path := some "models/a.sql" })] }
        "c" [] [] (fun _ => false) (fun _ => Except.error "boom") (fun _ => Except.ok none)
        "model.a").invalid_references = ∅) := by
  decide

/-- Modelled from the claim for C1 only: the reference set obtained by
applying the substitution function one single time to each extracted
reference, extraction itself performing no substitution (empty maps make
`_normalize_table_reference` a pure lower-casing join). -/
def spec_substitute_once (dbS schS : List (String × String)) (t : TParsed) : Finset String :=
  (extract_table_references [] [] t).image (apply_substitutions_to_reference dbS schS)

/-- C1 (counterexample): with the schema map `{a ↦ b, b ↦ c}` and a table
reference `a.t`, the recorded reference set is `{c.t}` — substitution
acted once inside extraction and once more afterwards — while one single
application to the extracted reference yields `{b.t}`. -/
theorem substitution_not_applied_once :
    ¬ ((check_model_table_references
        { nodes := [("model.a", { name := "a", original_file_path := some "models/a.sql" })] }
        "c" [] [("a", "b"), ("b", "c")] (fun _ => true) (fun _ => Except.ok "sql")
        (fun _ => Except.ok (some ⟨[], [⟨"", "a", "t"⟩]⟩))
        "model.a").table_references =
      spec_substitute_once [] [("a", "b"), ("b", "c")] ⟨[], [⟨"", "a", "t"⟩]⟩) := by
  decide

/-- C1 (amended): the recorded reference set is one application of the
substitution function to each reference produced by the
substitution-aware extraction (so the maps act twice end-to-end), and the
manifest-side lookup keys are matched without any substitution. -/
theorem substitution_applied_after_extraction (man : Manifest) (root : String)
    (dbS schS : List (String × String)) (fe : String → Bool)
    (rf : String → Except String String)
    (po : String → Except String (Option TParsed)) (id op content : String)
    (tree : TParsed)
    (ho : get_model_original_file_path man id = some op)
    (hfe : fe (get_sql_file_path root op) = true)
    (hrf : rf (get_sql_file_path root op) = Except.ok content)
    (hpo : po content = Except.ok (some tree)) :
    (check_model_table_references man root dbS schS fe rf po id).table_references =
      apply_table_reference_substitutions dbS schS (extract_table_references dbS schS tree)
    ∧ (check_model_table_references man root dbS schS fe rf po id).valid_references =
      ((check_model_table_references man root dbS schS fe rf po id).table_references).filter
        (fun r => dictMem (get_all_referenceable_tables man) r = true) := by
  constructor <;>
    simp [check_model_table_references, ho, hfe, hrf, hpo]

theorem find?_refs_isSome_of_mem {k : String} {p : String × NodeData}
    {l : List (String × NodeData)} (hp : p ∈ l) (hk : k ∈ node_table_refs p) :
    ∃ q, l.reverse.find? (fun q => decide (k ∈ node_table_refs q)) = some q ∧
      q ∈ l ∧ k ∈ node_table_refs q := by
  have hsome : (l.reverse.find? (fun q => decide (k ∈ node_table_refs q))).isSome := by
    rw [List.find?_isSome]
    exact ⟨p, List.mem_reverse.mpr hp, by simpa using hk⟩
  rcases hfind : l.reverse.find? (fun q => decide (k ∈ node_table_refs q)) with _ | q
  · rw [hfind] at hsome
    simp at hsome
  · refine ⟨q, rfl, ?_, ?_⟩
    · exact List.mem_reverse.mp (List.mem_of_find?_eq_some hfind)
    · simpa using List.find?_some hfind

/-- C3: a model or source whose name, schema and database are all
non-empty generates exactly the three lower-cased reference strings, each
of which is a key of the final lookup table; under unique generation the
key maps to that descriptor's entry; and an extracted, substituted
reference is counted valid iff it is literally a key of the lookup. -/
theorem lookup_keys_and_exact_matching (man : Manifest) (id : String) (nd : NodeData)
    (root : String) (dbS schS : List (String × String)) (fe : String → Bool)
    (rf : String → Except String String)
    (po : String → Except String (Option TParsed)) (mid : String)
    (hmem : (id, nd) ∈ get_model_nodes man ∨ (id, nd) ∈ get_source_nodes man)
    (hn : nd.name ≠ "") (hs : nd.schema ≠ "") (hd : nd.database ≠ "") :
    generate_table_references nd.name nd.schema nd.database =
      [pyLower nd.name,
       pyLower nd.schema ++ "." ++ pyLower nd.name,
       pyLower nd.database ++ "." ++ pyLower nd.schema ++ "." ++ pyLower nd.name]
    ∧ (∀ k ∈ generate_table_references nd.name nd.schema nd.database,
        dictMem (get_all_referenceable_tables man) k = true)
    ∧ (∀ k ∈ generate_table_references nd.name nd.schema nd.database,
        (∀ p ∈ get_model_nodes man ++ get_source_nodes man,
          p ≠ (id, nd) → k ∉ node_table_refs p) →
        ∃ ty, dictFind? (get_all_referenceable_tables man) k =
          some { type := ty, unique_id := id, name := nd.name,
                 database := nd.database, schema := nd.schema })
    ∧ (∀ ref : String,
        ref ∈ (check_model_table_references man root dbS schS fe rf po mid).valid_references ↔
        (ref ∈ (check_model_table_references man root dbS schS fe rf po mid).table_references ∧
         dictMem (get_all_referenceable_tables man) ref = true)) := by
  refine ⟨by simp [generate_table_references, hn, hs, hd], ?_, ?_, ?_⟩
  · intro k hk
    have hk' : k ∈ node_table_refs (id, nd) := hk
    rw [dictMem, get_all_referenceable_tables_find?]
    rcases hmem with hmdl | hsrcmem
    · rcases hsrc : (get_source_nodes man).reverse.find?
          (fun p => decide (k ∈ node_table_refs p)) with _ | p
      · obtain ⟨q, hq, _, _⟩ := find?_refs_isSome_of_mem hmdl hk'
        rw [hq]
        simp
      · simp
    · obtain ⟨q, hq, _, _⟩ := find?_refs_isSome_of_mem hsrcmem hk'
      rw [hq]
      simp
  · intro k hk huniq
    have hk' : k ∈ node_table_refs (id, nd) := hk
    rw [get_all_referenceable_tables_find?]
    rcases hsrc : (get_source_nodes man).reverse.find?
        (fun p => decide (k ∈ node_table_refs p)) with _ | p
    · rcases hmem with hmdl | hsrcmem
      · obtain ⟨q, hq, hqmem, hqk⟩ := find?_refs_isSome_of_mem hmdl hk'
        rw [hq]
        have hq' : q = (id, nd) := by
          by_contra hne
          exact huniq q (List.mem_append.mpr (Or.inl hqmem)) hne hqk
        subst hq'
        exact ⟨"model", by simp [node_entry]⟩
      · obtain ⟨q, hq, _, _⟩ := find?_refs_isSome_of_mem hsrcmem hk'
        rw [hq] at hsrc
        exact absurd hsrc (by simp)
    · have hpmem : p ∈ get_source_nodes man :=
        List.mem_reverse.mp (List.mem_of_find?_eq_some hsrc)
      have hpk : k ∈ node_table_refs p := by simpa using List.find?_some hsrc
      have hp' : p = (id, nd) := by
        by_contra hne
        exact huniq p (List.mem_append.mpr (Or.inr hpmem)) hne hpk
      subst hp'
      exact ⟨"source", by simp [node_entry]⟩
  · intro ref
    by_cases hp : (check_model_table_references man root dbS schS fe rf po mid).sql_parsed = true
    · obtain ⟨op, content, tree, _, _, _, _, heq⟩ :=
        check_model_table_references_parsed_eq man root dbS schS fe rf po mid hp
      rw [heq]
      simp [Finset.mem_filter]
    · have hp' : (check_model_table_references man root dbS schS fe rf po mid).sql_parsed
          = false := by simpa using hp
      obtain ⟨ht, hv, _, _⟩ :=
        check_model_table_references_not_parsed man root dbS schS fe rf po mid hp'
      rw [ht, hv]
      simp

/-- C10: models are inserted into the lookup before sources, so a key
generated by both a model and a source keeps a source entry: kind
`source` and that source's identifier. -/
theorem sources_overwrite_models (man : Manifest) (k : String)
    (hm : ∃ p ∈ get_model_nodes man, k ∈ node_table_refs p)
    (hsrc : ∃ p ∈ get_source_nodes man, k ∈ node_table_refs p) :
    ∃ sid sd, (sid, sd) ∈ get_source_nodes man ∧ k ∈ node_table_refs (sid, sd) ∧
      dictFind? (get_all_referenceable_tables man) k =
        some { type := "source", unique_id := sid, name := sd.name,
               database := sd.database, schema := sd.schema } := by
  obtain ⟨p, hpmem, hpk⟩ := hsrc
  obtain ⟨⟨sid, sd⟩, hq, hqmem, hqk⟩ := find?_refs_isSome_of_mem hpmem hpk
  refine ⟨sid, sd, hqmem, hqk, ?_⟩
  rw [get_all_referenceable_tables_find?, hq]
  simp [node_entry]

/-! ## Concrete witnesses -/

/-- C1 witness: the amended substitution theorem at a concrete manifest,
file system and parse tree. -/
theorem substitution_applied_after_extraction_witness :
    (check_model_table_references
      { nodes := [("model.a", { name := "a", original_file_path := some "models/a.sql" })] }
      "c" [] [] (fun _ => true) (fun _ => Except.ok "sql")
      (fun _ => Except.ok (some ⟨[], [⟨"", "", "raw"⟩]⟩)) "model.a").table_references =
      apply_table_reference_substitutions [] []
        (extract_table_references [] [] ⟨[], [⟨"", "", "raw"⟩]⟩)
    ∧ (check_model_table_references
      { nodes := [("model.a", { name := "a", original_file_path := some "models/a.sql" })] }
      "c" [] [] (fun _ => true) (fun _ => Except.ok "sql")
      (fun _ => Except.ok (some ⟨[], [⟨"", "", "raw"⟩]⟩)) "model.a").valid_references =
      ((check_model_table_references
        { nodes := [("model.a", { name := "a", original_file_path := some "models/a.sql" })] }
        "c" [] [] (fun _ => true) (fun _ => Except.ok "sql")
        (fun _ => Except.ok (some ⟨[], [⟨"", "", "raw"⟩]⟩)) "model.a").table_references).filter
          (fun r => dictMem (get_all_referenceable_tables
            { nodes := [("model.a", { name := "a", original_file_path := some "models/a.sql" })] })
            r = true) :=
  substitution_applied_after_extraction
    { nodes := [("model.a", { name := "a", original_file_path := some "models/a.sql" })] }
    "c" [] [] (fun _ => true) (fun _ => Except.ok "sql")
    (fun _ => Except.ok (some ⟨[], [⟨"", "", "raw"⟩]⟩)) "model.a" "models/a.sql" "sql"
    ⟨[], [⟨"", "", "raw"⟩]⟩ (by decide) rfl rfl rfl

/-- C2 witness: the CTE-exclusion theorem at a concrete tree with one CTE
alias used bare and qualified. -/
theorem cte_exclusion_of_bare_names_witness :
    "cte1" ∉ extract_table_references [] [] ⟨[⟨"cte1"⟩], [⟨"", "", "cte1"⟩, ⟨"", "s", "cte1"⟩]⟩
    ∧ "s.cte1" ∈ extract_table_references [] []
        ⟨[⟨"cte1"⟩], [⟨"", "", "cte1"⟩, ⟨"", "s", "cte1"⟩]⟩ :=
  ⟨(cte_exclusion_of_bare_names [] [] ⟨[⟨"cte1"⟩], [⟨"", "", "cte1"⟩, ⟨"", "s", "cte1"⟩]⟩).1
      "cte1" (by decide) (by decide),
   (cte_exclusion_of_bare_names [] [] ⟨[⟨"cte1"⟩], [⟨"", "", "cte1"⟩, ⟨"", "s", "cte1"⟩]⟩).2
      ⟨"", "s", "cte1"⟩ (by decide) (by decide) "s.cte1" (by decide)⟩

/-- C3 witness: the lookup of a concrete source at all three
granularities and the exact-membership validity test. -/
theorem lookup_keys_and_exact_matching_witness :
    dictMem (get_all_referenceable_tables
      { nodes := [("model.m", { name := "m", schema := "s", database := "d", original_file_path := some "m.sql" })]
        sources := [("source.x.raw", { name := "raw", schema := "rs", database := "rd" })] })
      "rd.rs.raw" = true
    ∧ (∃ ty, dictFind? (get_all_referenceable_tables
        { nodes := [("model.m", { name := "m", schema := "s", database := "d", original_file_path := some "m.sql" })]
          sources := [("source.x.raw", { name := "raw", schema := "rs", database := "rd" })] })
        "rd.rs.raw" =
        some { type := ty, unique_id := "source.x.raw", name := "raw",
               database := "rd", schema := "rs" })
    ∧ ("raw" ∈ (check_model_table_references
        { nodes := [("model.m", { name := "m", schema := "s", database := "d", original_file_path := some "m.sql" })]
          sources := [("source.x.raw", { name := "raw", schema := "rs", database := "rd" })] }
        "c" [] [] (fun _ => true) (fun _ => Except.ok "q")
        (fun _ => Except.ok (some ⟨[], [⟨"", "", "raw"⟩]⟩)) "model.m").valid_references ↔
      ("raw" ∈ (check_model_table_references
        { nodes := [("model.m", { name := "m", schema := "s", database := "d", original_file_path := some "m.sql" })]
          sources := [("source.x.raw", { name := "raw", schema := "rs", database := "rd" })] }
        "c" [] [] (fun _ => true) (fun _ => Except.ok "q")
        (fun _ => Except.ok (some ⟨[], [⟨"", "", "raw"⟩]⟩)) "model.m").table_references ∧
       dictMem (get_all_referenceable_tables
        { nodes := [("model.m", { name := "m", schema := "s", database := "d", original_file_path := some "m.sql" })]
          sources := [("source.x.raw", { name := "raw", schema := "rs", database := "rd" })] })
        "raw" = true)) := by
  have T := lookup_keys_and_exact_matching
    { nodes := [("model.m", { name := "m", schema := "s", database := "d", original_file_path := some "m.sql" })]
      sources := [("source.x.raw", { name := "raw", schema := "rs", database := "rd" })] }
    "source.x.raw" { name := "raw", schema := "rs", database := "rd" }
    "c" [] [] (fun _ => true) (fun _ => Except.ok "q")
    (fun _ => Except.ok (some ⟨[], [⟨"", "", "raw"⟩]⟩)) "model.m"
    (Or.inr (by decide)) (by decide) (by decide) (by decide)
  exact ⟨T.2.1 "rd.rs.raw" (by decide), T.2.2.1 "rd.rs.raw" (by decide) (by decide),
    T.2.2.2 "raw"⟩

/-- C4 witness: a concrete run over declared columns `{id, email}` and
extracted columns `{id, name}`. -/
theorem column_check_diff_sets_witness :
    (check_model_columns
      { nodes := [("model.a", { original_file_path := some "m.sql", columns := ["id", "email"] })] }
      "c" (fun _ => true) (fun _ => Except.ok "q")
      (fun _ => Except.ok (some (.select [] [.column "id", .column "name"])))
      "model.a").missing_in_sql = {"email"}
    ∧ (check_model_columns
      { nodes := [("model.a", { original_file_path := some "m.sql", columns := ["id", "email"] })] }
      "c" (fun _ => true) (fun _ => Except.ok "q")
      (fun _ => Except.ok (some (.select [] [.column "id", .column "name"])))
      "model.a").extra_in_sql = {"name"}
    ∧ (check_model_columns
      { nodes := [("model.a", { original_file_path := some "m.sql", columns := ["id", "email"] })] }
      "c" (fun _ => true) (fun _ => Except.ok "q")
      (fun _ => Except.ok (some (.select [] [.column "id", .column "name"])))
      "model.a").columns_match = false := by
  have T := column_check_diff_sets
    { nodes := [("model.a", { original_file_path := some "m.sql", columns := ["id", "email"] })] }
    "c" (fun _ => true) (fun _ => Except.ok "q")
    (fun _ => Except.ok (some (.select [] [.column "id", .column "name"])))
    "model.a" (by decide) (by decide)
  exact ⟨T.1.trans (by decide), T.2.1.trans (by decide), by decide⟩

/-- C5 witness: the partition theorem at a concrete parsed run with one
unresolvable reference. -/
theorem table_check_partition_witness :
    (check_model_table_references
      { nodes := [("model.a", { name := "a", original_file_path := some "models/a.sql" })] }
      "c" [] [] (fun _ => true) (fun _ => Except.ok "sql")
      (fun _ => Except.ok (some ⟨[], [⟨"", "", "nope"⟩]⟩)) "model.a").invalid_references =
      (check_model_table_references
        { nodes := [("model.a", { name := "a", original_file_path := some "models/a.sql" })] }
        "c" [] [] (fun _ => true) (fun _ => Except.ok "sql")
        (fun _ => Except.ok (some ⟨[], [⟨"", "", "nope"⟩]⟩)) "model.a").table_references \
      (check_model_table_references
        { nodes := [("model.a", { name := "a", original_file_path := some "models/a.sql" })] }
        "c" [] [] (fun _ => true) (fun _ => Except.ok "sql")
        (fun _ => Except.ok (some ⟨[], [⟨"", "", "nope"⟩]⟩)) "model.a").valid_references
    ∧ ((check_model_table_references
        { nodes := [("model.a", { name := "a", original_file_path := some "models/a.sql" })] }
        "c" [] [] (fun _ => true) (fun _ => Except.ok "sql")
        (fun _ => Except.ok (some ⟨[], [⟨"", "", "nope"⟩]⟩)) "model.a").references_valid = true ↔
      (check_model_table_references
        { nodes := [("model.a", { name := "a", original_file_path := some "models/a.sql" })] }
        "c" [] [] (fun _ => true) (fun _ => Except.ok "sql")
        (fun _ => Except.ok (some ⟨[], [⟨"", "", "nope"⟩]⟩)) "model.a").invalid_references = ∅) := by
  have T := table_check_partition
    { nodes := [("model.a", { name := "a", original_file_path := some "models/a.sql" })] }
    "c" [] [] (fun _ => true) (fun _ => Except.ok "sql")
    (fun _ => Except.ok (some ⟨[], [⟨"", "", "nope"⟩]⟩)) "model.a"
  exact ⟨T.1, T.2.2.2.1 (by decide)⟩

/-- C6 witness: the reconstruction identity at the concrete column run of
the C4 witness. -/
theorem column_check_partition_witness :
    ((check_model_columns
      { nodes := [("model.a", { original_file_path := some "m.sql", columns := ["id", "email"] })] }
      "c" (fun _ => true) (fun _ => Except.ok "q")
      (fun _ => Except.ok (some (.select [] [.column "id", .column "name"])))
      "model.a").missing_in_sql ∪
     (check_model_columns
      { nodes := [("model.a", { original_file_path := some "m.sql", columns := ["id", "email"] })] }
      "c" (fun _ => true) (fun _ => Except.ok "q")
      (fun _ => Except.ok (some (.select [] [.column "id", .column "name"])))
      "model.a").extra_in_sql ∪
     ((check_model_columns
      { nodes := [("model.a", { original_file_path := some "m.sql", columns := ["id", "email"] })] }
      "c" (fun _ => true) (fun _ => Except.ok "q")
      (fun _ => Except.ok (some (.select [] [.column "id", .column "name"])))
      "model.a").manifest_columns ∩
      (check_model_columns
      { nodes := [("model.a", { original_file_path := some "m.sql", columns := ["id", "email"] })] }
      "c" (fun _ => true) (fun _ => Except.ok "q")
      (fun _ => Except.ok (some (.select [] [.column "id", .column "name"])))
      "model.a").sql_columns) =
     (check_model_columns
      { nodes := [("model.a", { original_file_path := some "m.sql", columns := ["id", "email"] })] }
      "c" (fun _ => true) (fun _ => Except.ok "q")
      (fun _ => Except.ok (some (.select [] [.column "id", .column "name"])))
      "model.a").manifest_columns ∪
     (check_model_columns
      { nodes := [("model.a", { original_file_path := some "m.sql", columns := ["id", "email"] })] }
      "c" (fun _ => true) (fun _ => Except.ok "q")
      (fun _ => Except.ok (some (.select [] [.column "id", .column "name"])))
      "model.a").sql_columns)
    ∧ Disjoint
      (check_model_columns
      { nodes := [("model.a", { original_file_path := some "m.sql", columns := ["id", "email"] })] }
      "c" (fun _ => true) (fun _ => Except.ok "q")
      (fun _ => Except.ok (some (.select [] [.column "id", .column "name"])))
      "model.a").missing_in_sql
      (check_model_columns
      { nodes := [("model.a", { original_file_path := some "m.sql", columns := ["id", "email"] })] }
      "c" (fun _ => true) (fun _ => Except.ok "q")
      (fun _ => Except.ok (some (.select [] [.column "id", .column "name"])))
      "model.a").extra_in_sql := by
  have T := column_check_partition
    { nodes := [("model.a", { original_file_path := some "m.sql", columns := ["id", "email"] })] }
    "c" (fun _ => true) (fun _ => Except.ok "q")
    (fun _ => Except.ok (some (.select [] [.column "id", .column "name"])))
    "model.a" (by decide)
  exact ⟨T.1, T.2.1⟩

/-- C7 witness: the adapter at all four oracle behaviours. -/
theorem parse_adapter_total_witness :
    parse_sql_file false (Except.ok "q")
      (fun _ : String => Except.ok (some (CParsed.nonSelect none))) = none
    ∧ parse_sql_file true (Except.error "e")
      (fun _ : String => Except.ok (some (CParsed.nonSelect none))) = none
    ∧ parse_sql_file true (Except.ok "q")
      (fun _ : String => (Except.error "boom" : Except String (Option CParsed))) = none
    ∧ parse_sql_file true (Except.ok "q")
      (fun _ : String => Except.ok (some (CParsed.nonSelect none))) =
        some (CParsed.nonSelect none) :=
  ⟨(parse_adapter_total false (Except.ok "q")
      (fun _ => Except.ok (some (CParsed.nonSelect none)))).2.1 rfl,
   (parse_adapter_total true (Except.error "e")
      (fun _ => Except.ok (some (CParsed.nonSelect none)))).2.2.1 "e" rfl,
   (parse_adapter_total true (Except.ok "q")
      (fun _ => (Except.error "boom" : Except String (Option CParsed)))).2.2.2.1
        "q" "boom" rfl rfl,
   (parse_adapter_total true (Except.ok "q")
      (fun _ => Except.ok (some (CParsed.nonSelect none)))).2.2.2.2
        "q" (some (CParsed.nonSelect none)) rfl rfl rfl⟩

/-- C8 witness: a concrete missing-file run and its batch behaviour. -/
theorem column_check_missing_file_witness :
    (check_model_columns { nodes := [("model.a", { original_file_path := some "m.sql" })] }
      "c" (fun _ => false) (fun _ => Except.error "x") (fun _ => Except.ok none)
      "model.a").sql_file_exists = false
    ∧ (check_model_columns { nodes := [("model.a", { original_file_path := some "m.sql" })] }
      "c" (fun _ => false) (fun _ => Except.error "x") (fun _ => Except.ok none)
      "model.a").errors = ["SQL file not found: " ++ get_sql_file_path "c" "m.sql"]
    ∧ (check_all_models { nodes := [("model.a", { original_file_path := some "m.sql" })] }
      "c" (fun _ => false) (fun _ => Except.error "x") (fun _ => Except.ok none)).length =
      (get_model_nodes { nodes := [("model.a", { original_file_path := some "m.sql" })] }).length := by
  have T := column_check_missing_file
    { nodes := [("model.a", { original_file_path := some "m.sql" })] }
    "c" (fun _ => false) (fun _ => Except.error "x") (fun _ => Except.ok none)
    "model.a" "m.sql" (by decide) rfl
  exact ⟨T.1, T.2.2.1, T.2.2.2.2.2.2.2.1⟩

/-- C9 witness: extraction at a concrete SELECT with a CTE, an aliased
expression, a plain column, a wildcard and named/unnamed expressions. -/
theorem columns_from_final_projection_witness :
    extract_columns_from_sql (.select [⟨"a", [.column "hidden"]⟩]
      [.aliasE (.column "x") "al", .column "c", .star, .other "", .other "fn"]) =
      {"al", "c", "fn"}
    ∧ projContribution (.other "fn") = some "fn" := by
  have T := columns_from_final_projection [⟨"a", [.column "hidden"]⟩] []
    [.aliasE (.column "x") "al", .column "c", .star, .other "", .other "fn"]
  exact ⟨T.1.trans (by decide), T.2.2.2.2.1 "fn" (by decide)⟩

/-- C10 witness: a model and a source sharing the bare table name `t`;
the retained entry is the source's. -/
theorem sources_overwrite_models_witness :
    ∃ sid sd, (sid, sd) ∈ get_source_nodes
        { nodes := [("model.m", { name := "t", schema := "s", database := "d", original_file_path := some "m.sql" })]
          sources := [("source.p.t", { name := "t", schema := "s2", database := "d2" })] } ∧
      "t" ∈ node_table_refs (sid, sd) ∧
      dictFind? (get_all_referenceable_tables
        { nodes := [("model.m", { name := "t", schema := "s", database := "d", original_file_path := some "m.sql" })]
          sources := [("source.p.t", { name := "t", schema := "s2", database := "d2" })] }) "t" =
        some { type := "source", unique_id := sid, name := sd.name,
               database := sd.database, schema := sd.schema } :=
  sources_overwrite_models
    { nodes := [("model.m", { name := "t", schema := "s", database := "d", original_file_path := some "m.sql" })]
      sources := [("source.p.t", { name := "t", schema := "s2", database := "d2" })] }
    "t" (by decide) (by decide)
